import Mathlib

/-!
Verification development for the calgary-library-scraper repository.

The embedding models the two core source files:
  * `src/scraper.py`   — per-entry field extraction (`scrape_library_data`'s
    inner loop), the pagination loop with its stagnation check, the
    incomplete-scrape restart, and the probe of the target item count;
  * `src/library_db.py` — the record store (a list of rows in insertion
    order, mirroring the `library_items` table), the Bayesian recompute
    `set_weighted_averages`, and the aggregate / ranking queries.

Python strings are modelled as `List Char`; Python floats (ratings) as `ℚ`;
SQL `NULL` as `Option`.  Each helper mirrors the exact Python primitive the
source calls (`str.split`, `str.strip`, `re.sub`, `int`, `float`), restricted
to the ASCII inputs the catalog produces (no exponent notation in floats, no
underscores in int literals).
-/

/-- Python `\s` / `str.strip()` whitespace, ASCII range. -/
def isPySpace (c : Char) : Bool :=
  c == ' ' || c == '\t' || c == '\n' || c == '\r' || c == '\x0b' || c == '\x0c'

/-- Numeric value of an ASCII digit. -/
def charDigit (c : Char) : Nat := c.toNat - 48

/-- Parse a nonempty all-digit string, as Python `int` does after sign/space
handling. -/
def parseNatDigits (l : List Char) : Option Nat :=
  if l ≠ [] ∧ l.all (·.isDigit) then
    some (l.foldl (fun n c => n * 10 + charDigit c) 0)
  else none

/-- Python `str.strip()` (strip whitespace from both ends). -/
def pyStripWs (l : List Char) : List Char :=
  ((l.dropWhile isPySpace).reverse.dropWhile isPySpace).reverse

/-- Python `int(s)`: optional sign around a digit string, whitespace
tolerated at the ends; `none` models the `ValueError`. -/
def pythonInt (l : List Char) : Option Int :=
  match pyStripWs l with
  | '-' :: rest => (parseNatDigits rest).map (fun n => -(n : Int))
  | '+' :: rest => (parseNatDigits rest).map (fun n => (n : Int))
  | rest => (parseNatDigits rest).map (fun n => (n : Int))

/-- Value of a digit string as a rational. -/
def natValQ (l : List Char) : ℚ :=
  ((l.foldl (fun n c => n * 10 + charDigit c) 0 : Nat) : ℚ)

/-- Unsigned part of Python `float(s)`: `digits`, `digits.`, `.digits` or
`digits.digits` (the catalog's star ratings; exponents not modelled). -/
def pythonFloatCore (s : List Char) : Option ℚ :=
  let ip := s.takeWhile (·.isDigit)
  let rest := s.dropWhile (·.isDigit)
  match rest with
  | [] => if ip = [] then none else some (natValQ ip)
  | '.' :: fp =>
    if (ip ≠ [] ∨ fp ≠ []) ∧ fp.all (·.isDigit) then
      some (natValQ ip + natValQ fp / (10 : ℚ) ^ fp.length)
    else none
  | _ => none

/-- Python `float(s)`; `none` models the `ValueError`. -/
def pythonFloat (l : List Char) : Option ℚ :=
  match pyStripWs l with
  | '-' :: rest => (pythonFloatCore rest).map Neg.neg
  | '+' :: rest => pythonFloatCore rest
  | rest => pythonFloatCore rest

/-- Python `s.replace(" ", "")`. -/
def removeSpaces (l : List Char) : List Char := l.filter (· ≠ ' ')

/-- Python `s.replace(",", "")`. -/
def removeCommas (l : List Char) : List Char := l.filter (· ≠ ',')

/-- Python `s.strip(chars)`: strip any of the given characters from both
ends. -/
def stripChars (cs l : List Char) : List Char :=
  ((l.dropWhile (cs.contains ·)).reverse.dropWhile (cs.contains ·)).reverse

/-- `leadsWith sep l` holds when `sep` is an initial run of `l`. -/
def leadsWith : List Char → List Char → Bool
  | [], _ => true
  | _ :: _, [] => false
  | a :: as, b :: bs => a == b && leadsWith as bs

/-- Fuel-indexed worker for `pySplitSep`; the fuel strictly exceeds the
input length, so the `0` case is never reached on the wrapper's calls. -/
def splitSepGo (sep : List Char) : Nat → List Char → List (List Char)
  | 0, _ => [[]]
  | fuel + 1, l =>
    if sep ≠ [] ∧ leadsWith sep l then
      [] :: splitSepGo sep fuel (l.drop sep.length)
    else
      match l with
      | [] => [[]]
      | c :: cs =>
        match splitSepGo sep fuel cs with
        | [] => [[c]]
        | chunk :: rest => (c :: chunk) :: rest

/-- Python `s.split(sep)` for a nonempty separator: leftmost-first,
non-overlapping, keeping empty chunks. -/
def pySplitSep (sep l : List Char) : List (List Char) :=
  splitSepGo sep (l.length + 1) l

/-- Split at every single whitespace character, keeping empty chunks. -/
def splitWsAux : List Char → List (List Char)
  | [] => [[]]
  | c :: cs =>
    if isPySpace c then [] :: splitWsAux cs
    else
      match splitWsAux cs with
      | [] => [[c]]
      | chunk :: rest => (c :: chunk) :: rest

/-- Python `s.split()` (no argument): split on whitespace runs, discarding
empty chunks. -/
def pySplitWs (l : List Char) : List (List Char) :=
  (splitWsAux l).filter (fun c => c ≠ ([] : List Char))

/-- Python `s.split(",", 1)` followed by a two-name unpacking: yields the
part before the first comma and everything after it, or `none` (the
`ValueError` of the unpacking) when no comma occurs. -/
def splitFirstComma : List Char → Option (List Char × List Char)
  | [] => none
  | c :: cs =>
    if c = ',' then some ([], cs)
    else (splitFirstComma cs).map (fun p => (c :: p.1, p.2))

/-- State machine for `re.sub(r'\.\s+', '.', s)`: the flag records that the
previous emitted character was a dot whose trailing whitespace run is being
swallowed. -/
def collapseDotWsAux : Bool → List Char → List Char
  | _, [] => []
  | skipping, c :: cs =>
    if skipping && isPySpace c then collapseDotWsAux true cs
    else if c = '.' then '.' :: collapseDotWsAux true cs
    else c :: collapseDotWsAux false cs

/-- `re.sub(r'\.\s+', '.', s)`: every dot followed by whitespace keeps only
the dot. -/
def collapseDotWs (l : List Char) : List Char := collapseDotWsAux false l

/-- Author normalization of `scrape_library_data`:
`last, first = author.split(",", 1)`, `last.replace(" ", "")`,
`re.sub(r'\.\s+', '.', first.strip())`, reassembled as `f"{last}, {first}"`.
`none` models the caught `ValueError` when the raw string has no comma. -/
def normalizeAuthor (a : List Char) : Option (List Char) :=
  (splitFirstComma a).map
    (fun p => removeSpaces p.1 ++ ',' :: ' ' :: collapseDotWs (pyStripWs p.2))

/-- SQLite's byte-order comparison on TEXT values (used only by the
`format` tie-break in `get_format_data`). -/
def strLe : List Char → List Char → Bool
  | [], _ => true
  | _ :: _, [] => false
  | a :: as, b :: bs => if a = b then strLe as bs else decide (a < b)

/-- Python `round(x, 2)` modelled over `ℚ` (half-integer ties rounded up;
Python's float tie-breaking never matters to the claims, which use the same
function on both the code side and the spec side). -/
def round2 (q : ℚ) : ℚ :=
  ((Int.fdiv (q * 100 + 1 / 2).num (q * 100 + 1 / 2).den : ℤ) : ℚ) / 100

/-- The `Book` object of `library_db.py`: every attribute starts as `None`
and is filled best-effort by the extractor. -/
structure Book where
  title : Option (List Char) := none
  author : Option (List Char) := none
  format : Option (List Char) := none
  pub_year : Option Int := none
  rating : Option ℚ := none
  num_ratings : Option Int := none
  link : Option (List Char) := none
deriving DecidableEq

/-- One raw catalog-entry fragment (`div.cp-search-result-item-content`),
reduced to the text each `book_card.find(...)` call of the extractor reads;
`none` means the sub-element is missing (the `.text` access raises). -/
structure RawCard where
  titleText : Option (List Char) := none
  subtitleText : Option (List Char) := none
  authorText : Option (List Char) := none
  displayInfo : Option (List Char) := none
  starsText : Option (List Char) := none
  countText : Option (List Char) := none
  linkHref : Option (List Char) := none
deriving DecidableEq

/-- One row of the `library_items` table (8 columns). -/
structure Row where
  title : Option (List Char) := none
  author : Option (List Char) := none
  format : Option (List Char) := none
  pub_year : Option Int := none
  rating : Option ℚ := none
  num_ratings : Option Int := none
  bayesian_avg_rating : Option ℚ := none
  link : Option (List Char) := none
deriving DecidableEq

/-- Title step: required primary text plus the optional
`f"{title}: {subtitle}"` suffix (the subtitle access is wrapped). -/
def fieldTitle (t : List Char) (sub : Option (List Char)) : List Char :=
  match sub with
  | none => t
  | some s => t ++ ':' :: ' ' :: s

/-- Author step: the whole try-block around `author-link`; missing element
or missing comma leaves the field absent. -/
def fieldAuthor (a : Option (List Char)) : Option (List Char) :=
  match a with
  | none => none
  | some s => normalizeAuthor s

/-- Format step: `display-info-primary` text split on `", "`, first part. -/
def fieldFormat (d : Option (List Char)) : Option (List Char) :=
  match d with
  | none => none
  | some s => some ((pySplitSep [',', ' '] s).headD [])

/-- Year step: second `", "` part parsed as `int`, with years below 1000
discarded inside the same try-block. -/
def fieldYear (d : Option (List Char)) : Option Int :=
  match d with
  | none => none
  | some s =>
    match (pySplitSep [',', ' '] s)[1]? with
    | none => none
    | some ys =>
      match pythonInt ys with
      | none => none
      | some y => if y < 1000 then none else some y

/-- Rating/count step: one try-block assigning `book.rating` first and
`book.num_ratings` second, so a failure of the count extraction leaves the
already-assigned rating in place. -/
def fieldRatingPair (stars cnt : Option (List Char)) : Option ℚ × Option Int :=
  match stars with
  | none => (none, none)
  | some s =>
    match (pySplitSep [' '] s)[2]? with
    | none => (none, none)
    | some tok =>
      match pythonFloat tok with
      | none => (none, none)
      | some r =>
        match cnt with
        | none => (some r, none)
        | some c =>
          match pythonInt (removeCommas
              ((pySplitSep [' '] (stripChars ['(', ',', ')'] c)).headD [])) with
          | none => (some r, none)
          | some n => (some r, some n)

/-- Per-entry extraction of `scrape_library_data` (lines 126–160): every
field is wrapped in its own try-block except the title access, whose raise
propagates and aborts the record (`none`). -/
def scrapeBookCard (card : RawCard) : Option Book :=
  match card.titleText with
  | none => none
  | some t =>
    some
      { title := some (fieldTitle t card.subtitleText)
        author := fieldAuthor card.authorText
        format := fieldFormat card.displayInfo
        pub_year := fieldYear card.displayInfo
        rating := (fieldRatingPair card.starsText card.countText).1
        num_ratings := (fieldRatingPair card.starsText card.countText).2
        link := card.linkHref }

/-- `LibraryDB.add_library_item`: INSERT of the book's attributes with
`bayesian_avg_rating` fixed to `NULL`; row identity is insertion order. -/
def add_library_item (b : Book) (store : List Row) : List Row :=
  store ++
    [{ title := b.title, author := b.author, format := b.format,
       pub_year := b.pub_year, rating := b.rating,
       num_ratings := b.num_ratings, bayesian_avg_rating := none,
       link := b.link }]

/-- `LibraryDB.get_item_count`: `SELECT COUNT(*)`. -/
def get_item_count (store : List Row) : Nat := store.length

/-- `SELECT AVG(rating) FROM library_items WHERE rating IS NOT NULL`, with
the code's fallback `C = 0` when the average is `NULL` (no rated rows). -/
def meanRating (store : List Row) : ℚ :=
  let rs := store.filterMap (·.rating)
  if rs.length = 0 then 0 else rs.sum / (rs.length : ℚ)

/-- `LibraryDB.set_weighted_averages`: one full pass computing
`round((v/(v+20))*R + (20/(v+20))*C, 2)` for every row whose `rating` and
`num_ratings` are both non-NULL, skipping the others. -/
def set_weighted_averages (store : List Row) : List Row :=
  let C := meanRating store
  store.map (fun r =>
    match r.rating, r.num_ratings with
    | some R, some v =>
      { r with
        bayesian_avg_rating :=
          some (round2 (((v : ℚ) / ((v : ℚ) + 20)) * R
            + (20 / ((v : ℚ) + 20)) * C)) }
    | _, _ => r)

/-- `ORDER BY k DESC` over any linearly ordered sort key, modelled as an
insertion sort (SQLite leaves the order of tied rows unspecified; the
claims only use cap and monotonicity, which hold for every tie order). -/
def sortDescBy {α β : Type} [LinearOrder β] (k : α → β) (l : List α) : List α :=
  List.insertionSort (fun a b => k b ≤ k a) l

/-- `LibraryDB.get_frequent_authors`: non-NULL authors grouped, counted,
ordered by count descending, `fetchmany(20)`. -/
def get_frequent_authors (store : List Row) : List (List Char × Nat) :=
  let rows := store.filter (fun r => r.author.isSome)
  let keys := (rows.filterMap (·.author)).dedup
  let pairs := keys.map
    (fun a => (a, (rows.filter (fun r => r.author = some a)).length))
  (sortDescBy (fun p => p.2) pairs).take 20

/-- `LibraryDB.get_format_data`: non-NULL formats grouped, counted, ordered
by count descending then format ascending. -/
def get_format_data (store : List Row) : List (List Char × Nat) :=
  let rows := store.filter (fun r => r.format.isSome)
  let keys := (rows.filterMap (·.format)).dedup
  let pairs := keys.map
    (fun f => (f, (rows.filter (fun r => r.format = some f)).length))
  List.insertionSort
    (fun x y => y.2 < x.2 ∨ (y.2 = x.2 ∧ strLe x.1 y.1 = true)) pairs

/-- `LibraryDB.get_pub_year_data`: non-NULL years grouped, counted, ordered
by year descending. -/
def get_pub_year_data (store : List Row) : List (Int × Nat) :=
  let rows := store.filter (fun r => r.pub_year.isSome)
  let keys := (rows.filterMap (·.pub_year)).dedup
  let pairs := keys.map
    (fun y => (y, (rows.filter (fun r => r.pub_year = some y)).length))
  sortDescBy (fun p => p.1) pairs

/-- NULL-defaulting view of an optional sort key; every query applies it
only to rows already filtered to a non-NULL key. -/
def optQ (q : Option ℚ) : ℚ := q.getD 0

/-- `LibraryDB.get_top_books_unweighted`: rows with non-NULL `rating`,
ordered by `rating` descending, `fetchmany(10)`, as
`(title, author, rating)` tuples. -/
def get_top_books_unweighted (store : List Row) :
    List (Option (List Char) × Option (List Char) × Option ℚ) :=
  ((sortDescBy (fun r => optQ r.rating)
      (store.filter (fun r => r.rating.isSome))).take 10).map
    (fun r => (r.title, r.author, r.rating))

/-- `LibraryDB.get_top_books_weighted`: rows with non-NULL
`bayesian_avg_rating`, ordered by it descending, `fetchmany(10)`. -/
def get_top_books_weighted (store : List Row) :
    List (Option (List Char) × Option (List Char) × Option ℚ) :=
  ((sortDescBy (fun r => optQ r.bayesian_avg_rating)
      (store.filter (fun r => r.bayesian_avg_rating.isSome))).take 10).map
    (fun r => (r.title, r.author, r.bayesian_avg_rating))

/-- `LibraryDB.get_top_authors_unweighted`: rows with non-NULL `rating`
grouped by author (a NULL author forms its own group), `ROUND(AVG(rating), 2)`
per group, ordered descending, `fetchmany(10)`. -/
def get_top_authors_unweighted (store : List Row) :
    List (Option (List Char) × ℚ) :=
  let rows := store.filter (fun r => r.rating.isSome)
  let keys := (rows.map (·.author)).dedup
  let pairs := keys.map (fun a =>
    let rs := (rows.filter (fun r => r.author = a)).filterMap (·.rating)
    (a, round2 (rs.sum / (rs.length : ℚ))))
  (sortDescBy (fun p => p.2) pairs).take 10

/-- `LibraryDB.get_top_authors_weighted`: rows with non-NULL
`bayesian_avg_rating` grouped by author; the bare `bayesian_avg_rating`
column is taken from one row of each group (SQLite documents the choice as
arbitrary; the model picks the group's last row in table order — no claim
below depends on which row is picked), ordered descending, `fetchmany(10)`. -/
def get_top_authors_weighted (store : List Row) :
    List (Option (List Char) × Option ℚ) :=
  let rows := store.filter (fun r => r.bayesian_avg_rating.isSome)
  let keys := (rows.map (·.author)).dedup
  let pairs := keys.map (fun a =>
    (a, ((rows.filter (fun r => r.author = a)).getLast?).bind
      (·.bayesian_avg_rating)))
  (sortDescBy (fun p => optQ p.2) pairs).take 10

/-- `LibraryDB.get_ratings_per_num_ratings`: every row with both `rating`
and `num_ratings` non-NULL, unordered, as `(num_ratings, rating)` pairs. -/
def get_ratings_per_num_ratings (store : List Row) :
    List (Option Int × Option ℚ) :=
  (store.filter (fun r => r.rating.isSome && r.num_ratings.isSome)).map
    (fun r => (r.num_ratings, r.rating))

/-- One page of the paging loop: each card is extracted and inserted; a
`none` extraction (missing title) models the uncaught raise that aborts the
whole scrape. -/
def processPage (cards : List RawCard) (store : List Row) :
    Option (List Row) :=
  cards.foldl
    (fun acc card =>
      acc.bind (fun st => (scrapeBookCard card).map (fun b => add_library_item b st)))
    (some store)

/-- The `while library_db.get_item_count() < target` loop of
`scrape_library_data` (lines 109–168): `prev` is `prev_item_count`; after a
page, an unchanged count breaks the loop.  The catalog is modelled as the
finite list of pages it can serve; past its end every fetch yields an empty
page, whose processing leaves the count unchanged and so stops the loop —
hence the `[]` case returns the store directly. -/
def scrapeLoop : List (List RawCard) → Nat → List Row → Nat → Option (List Row)
  | [], _, store, _ => some store
  | page :: rest, prev, store, target =>
    if store.length < target then
      match processPage page store with
      | none => none
      | some st =>
        if st.length = prev then some st
        else scrapeLoop rest st.length st target
    else some store

/-- `scrape_library_data` after the probe (lines 109–177), with the catalog
modelled as one page list per attempt: run the paging loop (with
`prev_item_count = 0`); if the count missed the target, reset the table
(`create_table`) and restart on the next attempt's pages; after the
conditional restart returns, invoke `set_weighted_averages`.  The result
pairs the final store with the number of `set_weighted_averages`
invocations; `none` models a fatal abort (or running out of modelled
attempts while still incomplete). -/
def scrapeFull : List (List (List RawCard)) → Nat → List Row →
    Option (List Row × Nat)
  | [], _, _ => none
  | pages :: restAttempts, target, store =>
    match scrapeLoop pages 0 store target with
    | none => none
    | some st =>
      if st.length ≠ target then
        match scrapeFull restAttempts target [] with
        | none => none
        | some (st2, n) => some (set_weighted_averages st2, n + 1)
      else some (set_weighted_averages st, 1)

/-- `_get_target_item_count` (lines 71–80): the pagination label's text,
split on whitespace, token 4, commas removed, parsed as `int`; any failure
inside the inner try yields `0`.  `none` input models a missing
`cp-pagination-label` element. -/
def parseTargetCount (labelText : Option (List Char)) : Int :=
  match labelText with
  | none => 0
  | some s =>
    match (pySplitWs s)[4]? with
    | none => 0
    | some tok => (pythonInt (removeCommas tok)).getD 0

/-- Outcome of the scrape's init step (lines 104–107). -/
inductive InitOutcome where
  | fatalNoResults : InitOutcome
  | proceed : Int → InitOutcome
deriving DecidableEq

/-- The zero-target gate of `scrape_library_data`: a probed count of 0
reports "No results found" and exits. -/
def scrapeInitStep (labelText : Option (List Char)) : InitOutcome :=
  if parseTargetCount labelText = 0 then InitOutcome.fatalNoResults
  else InitOutcome.proceed (parseTargetCount labelText)

lemma sortDescBy_pairwise {α β : Type} [LinearOrder β] (k : α → β)
    (l : List α) : List.Pairwise (fun a b => k b ≤ k a) (sortDescBy k l) := by
  haveI : IsTotal α (fun a b => k b ≤ k a) := ⟨fun a b => le_total (k b) (k a)⟩
  haveI : IsTrans α (fun a b => k b ≤ k a) :=
    ⟨fun _ _ _ hab hbc => le_trans hbc hab⟩
  exact List.sorted_insertionSort _ l

lemma sortDescBy_perm {α β : Type} [LinearOrder β] (k : α → β) (l : List α) :
    (sortDescBy k l).Perm l :=
  List.perm_insertionSort _ l

lemma pairwise_take_sortDescBy {α β : Type} [LinearOrder β] (k : α → β)
    (l : List α) (n : Nat) :
    List.Pairwise (fun a b => k b ≤ k a) ((sortDescBy k l).take n) :=
  List.Pairwise.sublist (List.take_sublist n _) (sortDescBy_pairwise k l)

/-- Claim C7: on an empty store every one of the listed aggregate/ranking
queries — `topBooksUnweighted`, `topBooksWeighted`, `topAuthorsUnweighted`,
`topAuthorsWeighted`, `frequentAuthors`, `formatDistribution`,
`pubYearDistribution`, `ratingVsCount` — returns the empty list (a value,
not an absent/error result). -/
theorem c7_empty_store_queries :
    get_top_books_unweighted [] = [] ∧
    get_top_books_weighted [] = [] ∧
    get_top_authors_unweighted [] = [] ∧
    get_top_authors_weighted [] = [] ∧
    get_frequent_authors [] = [] ∧
    get_format_data [] = [] ∧
    get_pub_year_data [] = [] ∧
    get_ratings_per_num_ratings [] = [] :=
  ⟨rfl, rfl, rfl, rfl, rfl, rfl, rfl, rfl⟩

/-- Take-after-descending-sort of tagged keys keeps the keys pairwise
distinct (the `GROUP BY` shape shared by the grouped queries). -/
lemma map_fst_take_sort_nodup {α β : Type} [DecidableEq α] [DecidableEq β]
    (keys : List α) (g : α → β) (k : α × β → ℚ) (h : keys.Nodup) (n : Nat) :
    (((sortDescBy k (keys.map (fun a => (a, g a)))).take n).map
      Prod.fst).Nodup := by
  have hpf : (keys.map (fun a => (a, g a))).map Prod.fst = keys := by
    rw [List.map_map]
    exact List.map_id keys
  have hperm : ((sortDescBy k (keys.map (fun a => (a, g a)))).map
      Prod.fst).Perm ((keys.map (fun a => (a, g a))).map Prod.fst) :=
    (sortDescBy_perm k (keys.map (fun a => (a, g a)))).map Prod.fst
  have hsn : ((sortDescBy k (keys.map (fun a => (a, g a)))).map
      Prod.fst).Nodup := hperm.nodup_iff.mpr (by rw [hpf]; exact h)
  rw [List.map_take]
  exact List.Nodup.sublist (List.take_sublist _ _) hsn

/-- Claim C8: every top-N query respects its cap (10 rows, 20 for
`frequentAuthors`) and returns a sequence monotonically non-increasing in
its sort key (`rating`, `bayesianRating`, rounded average rating, or
count). -/
theorem c8_topn_cap_and_monotone (store : List Row) :
    (get_top_books_unweighted store).length ≤ 10 ∧
    List.Pairwise (fun a b => optQ b.2.2 ≤ optQ a.2.2)
      (get_top_books_unweighted store) ∧
    (get_top_books_weighted store).length ≤ 10 ∧
    List.Pairwise (fun a b => optQ b.2.2 ≤ optQ a.2.2)
      (get_top_books_weighted store) ∧
    (get_top_authors_unweighted store).length ≤ 10 ∧
    List.Pairwise (fun a b => b.2 ≤ a.2) (get_top_authors_unweighted store) ∧
    (get_top_authors_weighted store).length ≤ 10 ∧
    List.Pairwise (fun a b => optQ b.2 ≤ optQ a.2)
      (get_top_authors_weighted store) ∧
    (get_frequent_authors store).length ≤ 20 ∧
    List.Pairwise (fun a b => b.2 ≤ a.2) (get_frequent_authors store) := by
  refine ⟨?_, ?_, ?_, ?_, ?_, ?_, ?_, ?_, ?_, ?_⟩
  · unfold get_top_books_unweighted
    rw [List.length_map]
    exact List.length_take_le _ _
  · unfold get_top_books_unweighted
    exact List.pairwise_map.mpr
      (pairwise_take_sortDescBy (fun r : Row => optQ r.rating) _ 10)
  · unfold get_top_books_weighted
    rw [List.length_map]
    exact List.length_take_le _ _
  · unfold get_top_books_weighted
    exact List.pairwise_map.mpr
      (pairwise_take_sortDescBy
        (fun r : Row => optQ r.bayesian_avg_rating) _ 10)
  · unfold get_top_authors_unweighted
    exact List.length_take_le _ _
  · unfold get_top_authors_unweighted
    exact pairwise_take_sortDescBy
      (fun p : Option (List Char) × ℚ => p.2) _ 10
  · unfold get_top_authors_weighted
    exact List.length_take_le _ _
  · unfold get_top_authors_weighted
    exact pairwise_take_sortDescBy
      (fun p : Option (List Char) × Option ℚ => optQ p.2) _ 10
  · unfold get_frequent_authors
    exact List.length_take_le _ _
  · unfold get_frequent_authors
    exact pairwise_take_sortDescBy (fun p : List Char × Nat => p.2) _ 20

/-- A store state with the same author on two rows carrying distinct
non-null Bayesian ratings (both rows rank within the top 10). -/
def rowX5 : Row := { author := some ['X'], bayesian_avg_rating := some 5 }

/-- Companion row for the `get_top_authors_weighted` grouping check. -/
def rowX4 : Row := { author := some ['X'], bayesian_avg_rating := some 4 }

/-- Claim C4 is false on the code: `get_top_authors_weighted` has
`GROUP BY author` in its SQL, so a store holding two records with the same
author and distinct non-null Bayesian ratings yields that author once, not
"one row per author/bayesianRating combination as stored". -/
theorem c4_counterexample :
    rowX5.author = rowX4.author ∧
    rowX5.bayesian_avg_rating = some 5 ∧
    rowX4.bayesian_avg_rating = some 4 ∧
    ((5 : ℚ) = 4) = False ∧
    List.count (some ['X'])
      ((get_top_authors_weighted [rowX5, rowX4]).map Prod.fst) = 1 := by
  refine ⟨rfl, rfl, rfl, by simp, by decide⟩

/-- Claim C4 amended: `get_top_authors_weighted` groups by author
(`GROUP BY author`), so the returned rows carry pairwise-distinct authors —
an author never appears more than once; each author's displayed
`bayesianRating` is the bare-column value of one of that author's rows, and
the result is the top 10 of those grouped rows by it, descending. -/
theorem c4_amended_group_by_author (store : List Row) :
    ((get_top_authors_weighted store).map Prod.fst).Nodup := by
  unfold get_top_authors_weighted
  exact map_fst_take_sort_nodup
    (((store.filter (fun r => r.bayesian_avg_rating.isSome)).map
      (·.author)).dedup)
    (fun a => (((store.filter
      (fun r => r.bayesian_avg_rating.isSome)).filter
        (fun r => r.author = a)).getLast?).bind (·.bayesian_avg_rating))
    (fun p => optQ p.2) (List.nodup_dedup _) 10

/-- Claim C1: after one `set_weighted_averages` invocation, every row that
has both `rating = R` and `num_ratings = v` non-null carries
`bayesianRating = round((v/(v+20))*R + (20/(v+20))*C, 2)` with `C` the mean
of all non-null ratings of the store at recompute time (0 if none); the
pass updates all such rows in the same invocation and leaves every row
lacking `rating` or `num_ratings` untouched (so its `bayesianRating` stays
null). -/
theorem c1_recompute_formula (store : List Row) (i : Nat) (row : Row)
    (h : store[i]? = some row) :
    (row.rating = none ∨ row.num_ratings = none →
      (set_weighted_averages store)[i]? = some row) ∧
    (∀ (R : ℚ) (v : Int), row.rating = some R → row.num_ratings = some v →
      (set_weighted_averages store)[i]? =
        some { row with
               bayesian_avg_rating :=
                 some (round2 (((v : ℚ) / ((v : ℚ) + 20)) * R
                   + (20 / ((v : ℚ) + 20)) * meanRating store)) }) := by
  constructor
  · intro hnone
    unfold set_weighted_averages
    rw [List.getElem?_map, h]
    rcases hnone with hr | hv
    · cases hv : row.num_ratings <;> simp [hr, hv]
    · cases hr : row.rating <;> simp [hr, hv]
  · intro R v hR hv
    unfold set_weighted_averages
    rw [List.getElem?_map, h]
    simp [hR, hv]

/-- A rated demo row: rating 4 backed by 80 ratings. -/
def rowRated : Row :=
  { title := some ['a'], rating := some 4, num_ratings := some 80 }

/-- An unrated demo row. -/
def rowUnrated : Row := { title := some ['b'] }

/-- Witness for C1 on the concrete two-row store `[rowRated, rowUnrated]`:
the rated row receives exactly the Bayesian formula's value and the
unrated row is returned unchanged (its `bayesianRating` still null). -/
theorem c1_recompute_formula_witness :
    (set_weighted_averages [rowRated, rowUnrated])[0]? =
      some { rowRated with
             bayesian_avg_rating :=
               some (round2 ((((80 : Int) : ℚ) / (((80 : Int) : ℚ) + 20)) * 4
                 + (20 / (((80 : Int) : ℚ) + 20))
                   * meanRating [rowRated, rowUnrated])) } ∧
    (set_weighted_averages [rowRated, rowUnrated])[1]? = some rowUnrated ∧
    rowUnrated.bayesian_avg_rating = none :=
  ⟨(c1_recompute_formula [rowRated, rowUnrated] 0 rowRated rfl).2 4 80 rfl rfl,
   (c1_recompute_formula [rowRated, rowUnrated] 1 rowUnrated rfl).1
     (Or.inl rfl),
   rfl⟩

/-- In the rating/count try-block a non-null count can only be produced
after a successful rating parse: the pair's second component being set
forces the first to be set. -/
lemma fieldRatingPair_snd_imp_fst (s c : Option (List Char)) :
    (fieldRatingPair s c).2.isSome → (fieldRatingPair s c).1.isSome := by
  unfold fieldRatingPair
  cases s with
  | none => simp
  | some sv =>
    cases h1 : (pySplitSep [' '] sv)[2]? with
    | none => simp [h1]
    | some tok =>
      cases h2 : pythonFloat tok with
      | none => simp [h1, h2]
      | some r =>
        cases c with
        | none => simp [h1, h2]
        | some cv =>
          cases h3 : pythonInt (removeCommas
              ((pySplitSep [' '] (stripChars ['(', ',', ')'] cv)).head?.getD
                [])) <;> simp [h1, h2, h3]

/-- Claim C2 amended: for every record produced by the extractor,
`numRatings` set implies `rating` set (the count parse runs only after the
rating parse succeeded), but not conversely — `book.rating` is assigned
before `book.num_ratings` inside one try-block, so a count-extraction
failure after a successful rating parse stores a record with `rating`
non-null and `numRatings` null. -/
theorem c2_amended_num_implies_rating (card : RawCard) (b : Book)
    (h : scrapeBookCard card = some b) (hn : b.num_ratings.isSome) :
    b.rating.isSome := by
  unfold scrapeBookCard at h
  cases hc : card.titleText with
  | none => rw [hc] at h; exact absurd h (by simp)
  | some t =>
    rw [hc] at h
    have hb := (Option.some.injEq _ _).mp h
    rw [← hb] at hn ⊢
    exact fieldRatingPair_snd_imp_fst card.starsText card.countText hn

/-- A card whose star-rating element parses (token 2 is `4`) but whose
rating-count element is missing. -/
def cardRatingOnly : RawCard :=
  { titleText := some ['T'], starsText := some ("a b 4".toList) }

/-- The record the extractor produces for `cardRatingOnly`. -/
def bookRatingOnly : Book := { title := some ['T'], rating := some 4 }

/-- Claim C2 is false on the code: a successful rating parse followed by a
failing count extraction (here: missing count element) inserts a record
with `rating` non-null and `numRatings` null — exactly one of the
co-derived pair is set. -/
theorem c2_counterexample :
    scrapeBookCard cardRatingOnly = some bookRatingOnly ∧
    bookRatingOnly.rating = some 4 ∧
    bookRatingOnly.num_ratings = none ∧
    (add_library_item bookRatingOnly [])[0]? =
      some { title := some ['T'], rating := some 4 } ∧
    ({ title := some ['T'], rating := some 4 } : Row).rating.isSome ∧
    ({ title := some ['T'], rating := some 4 } : Row).num_ratings = none := by
  refine ⟨by decide, rfl, rfl, rfl, rfl, rfl⟩

/-- Witness for the amended C2 at a fully parsing card: both rating and
count succeed and both fields are set. -/
theorem c2_amended_witness :
    scrapeBookCard
      { titleText := some ['T'], starsText := some ("a b 4".toList),
        countText := some ("(80 ratings)".toList) } =
      some { title := some ['T'], rating := some 4,
             num_ratings := some 80 } ∧
    (({ title := some ['T'], rating := some 4,
        num_ratings := some 80 } : Book).num_ratings.isSome = true) ∧
    (({ title := some ['T'], rating := some 4,
        num_ratings := some 80 } : Book).rating.isSome = true) :=
  ⟨by decide, rfl,
   c2_amended_num_implies_rating
     { titleText := some ['T'], starsText := some ("a b 4".toList),
       countText := some ("(80 ratings)".toList) }
     { title := some ['T'], rating := some 4, num_ratings := some 80 }
     (by decide) rfl⟩

/-- Removing the rating-count element leaves the rating component of the
try-block unchanged and only the count absent. -/
lemma fieldRatingPair_cnt_none (s c : Option (List Char)) :
    fieldRatingPair s none = ((fieldRatingPair s c).1, none) := by
  unfold fieldRatingPair
  cases s with
  | none => simp
  | some sv =>
    cases h1 : (pySplitSep [' '] sv)[2]? with
    | none => simp [h1]
    | some tok =>
      cases h2 : pythonFloat tok with
      | none => simp [h1, h2]
      | some r =>
        cases c with
        | none => simp [h1, h2]
        | some cv =>
          cases h3 : pythonInt (removeCommas
              ((pySplitSep [' '] (stripChars ['(', ',', ')'] cv)).head?.getD
                [])) <;> simp [h1, h2, h3]

/-- Claim C3 amended: per-entry extraction is per-field independent for
every wrapped element — nulling the star-rating element yields the same
record with only `rating`/`numRatings` absent; nulling the count element
leaves only `numRatings` absent (the already-parsed rating is kept);
nulling the author, descriptor, link or subtitle element leaves every
other field unchanged — but the title access is not wrapped: a fragment
missing the title element makes the extraction raise (no record), so a
record is produced exactly when the title element is present. -/
theorem c3_amended_field_independence :
    (∀ card : RawCard, (scrapeBookCard card).isSome ↔
      card.titleText.isSome) ∧
    (∀ (card : RawCard) (b : Book), scrapeBookCard card = some b →
      scrapeBookCard { card with starsText := none } =
        some { b with rating := none, num_ratings := none }) ∧
    (∀ (card : RawCard) (b : Book), scrapeBookCard card = some b →
      scrapeBookCard { card with countText := none } =
        some { b with num_ratings := none }) ∧
    (∀ (card : RawCard) (b : Book), scrapeBookCard card = some b →
      scrapeBookCard { card with authorText := none } =
        some { b with author := none }) ∧
    (∀ (card : RawCard) (b : Book), scrapeBookCard card = some b →
      scrapeBookCard { card with displayInfo := none } =
        some { b with format := none, pub_year := none }) ∧
    (∀ (card : RawCard) (b : Book), scrapeBookCard card = some b →
      scrapeBookCard { card with linkHref := none } =
        some { b with link := none }) ∧
    (∀ (card : RawCard) (b b' : Book), scrapeBookCard card = some b →
      scrapeBookCard { card with subtitleText := none } = some b' →
      b'.author = b.author ∧ b'.format = b.format ∧
      b'.pub_year = b.pub_year ∧ b'.rating = b.rating ∧
      b'.num_ratings = b.num_ratings ∧ b'.link = b.link) := by
  refine ⟨?_, ?_, ?_, ?_, ?_, ?_, ?_⟩
  · intro card
    unfold scrapeBookCard
    cases hc : card.titleText <;> simp [hc]
  · intro card b h
    unfold scrapeBookCard at h ⊢
    cases hc : card.titleText with
    | none => rw [hc] at h; exact absurd h (by simp)
    | some t =>
      rw [hc] at h
      simp only [Option.some.injEq] at h
      subst h
      rfl
  · intro card b h
    unfold scrapeBookCard at h ⊢
    cases hc : card.titleText with
    | none => rw [hc] at h; exact absurd h (by simp)
    | some t =>
      rw [hc] at h
      simp only [Option.some.injEq] at h
      subst h
      simp [fieldRatingPair_cnt_none card.starsText card.countText]
  · intro card b h
    unfold scrapeBookCard at h ⊢
    cases hc : card.titleText with
    | none => rw [hc] at h; exact absurd h (by simp)
    | some t =>
      rw [hc] at h
      simp only [Option.some.injEq] at h
      subst h
      rfl
  · intro card b h
    unfold scrapeBookCard at h ⊢
    cases hc : card.titleText with
    | none => rw [hc] at h; exact absurd h (by simp)
    | some t =>
      rw [hc] at h
      simp only [Option.some.injEq] at h
      subst h
      rfl
  · intro card b h
    unfold scrapeBookCard at h ⊢
    cases hc : card.titleText with
    | none => rw [hc] at h; exact absurd h (by simp)
    | some t =>
      rw [hc] at h
      simp only [Option.some.injEq] at h
      subst h
      rfl
  · intro card b b' h h'
    unfold scrapeBookCard at h h'
    cases hc : card.titleText with
    | none => rw [hc] at h; exact absurd h (by simp)
    | some t =>
      rw [hc] at h h'
      simp only [Option.some.injEq] at h h'
      subst h
      subst h'
      exact ⟨rfl, rfl, rfl, rfl, rfl, rfl⟩

/-- A fragment with every sub-element present except the title element. -/
def cardNoTitle : RawCard :=
  { subtitleText := some ("sub".toList),
    authorText := some ("Austen, Jane".toList),
    displayInfo := some ("BOOK, 2016".toList),
    starsText := some ("a b 4".toList),
    countText := some ("(80 ratings)".toList),
    linkHref := some ("/x".toList) }

/-- Claim C3 is false on the code: the title access is outside every
try-block, so a fragment missing only the title element yields no record
at all (the raise aborts the scrape) instead of a best-effort record. -/
theorem c3_counterexample : scrapeBookCard cardNoTitle = none := by decide

/-- A fully populated fragment used to witness the field-independence
statements. -/
def cardFull : RawCard :=
  { titleText := some ['T'],
    subtitleText := some ['s'],
    authorText := some ("Austen, Jane".toList),
    displayInfo := some ("BOOK, 2016".toList),
    starsText := some ("a b 4".toList),
    countText := some ("(80 ratings)".toList),
    linkHref := some ("/x".toList) }

/-- The record extracted from `cardFull`. -/
def bookFull : Book :=
  { title := some ("T: s".toList),
    author := some ("Austen, Jane".toList),
    format := some ("BOOK".toList),
    pub_year := some 2016,
    rating := some 4,
    num_ratings := some 80,
    link := some ("/x".toList) }

/-- Witness for the amended C3 at `cardFull`: extraction succeeds, and
nulling the star-rating element keeps every other extracted field while
leaving `rating`/`numRatings` absent; nulling the count element keeps the
rating. -/
theorem c3_amended_witness :
    scrapeBookCard cardFull = some bookFull ∧
    scrapeBookCard { cardFull with starsText := none } =
      some { bookFull with rating := none, num_ratings := none } ∧
    scrapeBookCard { cardFull with countText := none } =
      some { bookFull with num_ratings := none } ∧
    scrapeBookCard { cardFull with authorText := none } =
      some { bookFull with author := none } :=
  ⟨by decide,
   c3_amended_field_independence.2.1 cardFull bookFull (by decide),
   c3_amended_field_independence.2.2.1 cardFull bookFull (by decide),
   c3_amended_field_independence.2.2.2.1 cardFull bookFull (by decide)⟩

/-- Claim C5: the paging loop's stagnation exit — while the store count is
below the probed target, a fetched page whose processing leaves
`store.count()` unchanged from its value before that page (the loop's
`prev_item_count`) ends the loop with that store, and the pages that would
follow are never fetched (the result does not depend on them). -/
theorem c5_stagnation_terminates (page : List RawCard)
    (rest rest' : List (List RawCard)) (prev : Nat) (store st : List Row)
    (target : Nat) (h1 : get_item_count store < target)
    (h2 : prev = get_item_count store)
    (h3 : processPage page store = some st)
    (h4 : get_item_count st = get_item_count store) :
    scrapeLoop (page :: rest) prev store target = some st ∧
    scrapeLoop (page :: rest) prev store target =
      scrapeLoop (page :: rest') prev store target := by
  have h1l : store.length < target := h1
  have hstop : st.length = prev := by
    rw [h2]
    exact h4
  constructor <;> simp [scrapeLoop, h1l, h3, hstop]

/-- Witness for C5: a store of one row, a target of 5, and an empty page
(the catalog has run dry): the loop stops with the same store and the
result ignores whatever pages would follow. -/
theorem c5_stagnation_terminates_witness :
    scrapeLoop [[], [cardFull]] 1 [rowRated] 5 = some [rowRated] ∧
    scrapeLoop [[], [cardFull]] 1 [rowRated] 5 =
      scrapeLoop [[], [cardNoTitle]] 1 [rowRated] 5 :=
  c5_stagnation_terminates [] [[cardFull]] [[cardNoTitle]] 1 [rowRated]
    [rowRated] 5 (by decide) rfl rfl rfl

/-- A minimal card whose extraction succeeds. -/
def cardTitleA : RawCard := { titleText := some ['A'] }

/-- A second minimal card whose extraction succeeds. -/
def cardTitleB : RawCard := { titleText := some ['B'] }

/-- Claim C6 is false on the code: `set_weighted_averages()` sits after the
restart branch, so it also runs in the outer frame once the recursive
restart returns.  Concretely: target 2, a first attempt whose only page is
empty (stagnation at 0 rows, incomplete), a second attempt delivering both
rows — the run reaches the target (final count 2) yet the recompute is
invoked twice, not once. -/
theorem c6_counterexample :
    (scrapeFull [[[]], [[cardTitleA, cardTitleB]]] 2 []).map Prod.snd =
      some 2 ∧
    (scrapeFull [[[]], [[cardTitleA, cardTitleB]]] 2 []).map
      (fun p => get_item_count p.1) = some 2 := by
  refine ⟨by decide, by decide⟩

/-- Claim C6 amended: the recompute runs exactly once per scrape frame —
a run whose paging loop reaches the target with no restart invokes
`set_weighted_averages` exactly once, and a run that restarts invokes it
once more than the restarted run does (so `1 + number of restarts` times in
total). -/
theorem c6_amended_recompute_per_frame :
    (∀ (pages : List (List RawCard)) (rest : List (List (List RawCard)))
        (target : Nat) (store st : List Row),
      scrapeLoop pages 0 store target = some st →
      get_item_count st = target →
      scrapeFull (pages :: rest) target store =
        some (set_weighted_averages st, 1)) ∧
    (∀ (pages : List (List RawCard)) (rest : List (List (List RawCard)))
        (target : Nat) (store st st2 : List Row) (n : Nat),
      scrapeLoop pages 0 store target = some st →
      get_item_count st ≠ target →
      scrapeFull rest target [] = some (st2, n) →
      scrapeFull (pages :: rest) target store =
        some (set_weighted_averages st2, n + 1)) := by
  constructor
  · intro pages rest target store st h1 h2
    have h2l : st.length = target := h2
    simp [scrapeFull, h1, h2l]
  · intro pages rest target store st st2 n h1 h2 h3
    have h2l : st.length ≠ target := h2
    simp [scrapeFull, h1, h2l, h3]

/-- The store produced by extracting `cardTitleA` and `cardTitleB`. -/
def storeAB : List Row :=
  [{ title := some ['A'] }, { title := some ['B'] }]

/-- Witness for the amended C6: with target 2, a clean one-attempt run
recomputes once; prefixing a stagnant empty attempt adds exactly one more
recompute (two in total). -/
theorem c6_amended_recompute_per_frame_witness :
    scrapeFull [[[cardTitleA, cardTitleB]]] 2 [] =
      some (set_weighted_averages storeAB, 1) ∧
    scrapeFull [[[]], [[cardTitleA, cardTitleB]]] 2 [] =
      some (set_weighted_averages (set_weighted_averages storeAB), 2) :=
  ⟨c6_amended_recompute_per_frame.1 [[cardTitleA, cardTitleB]] [] 2 []
      storeAB (by decide) (by decide),
   c6_amended_recompute_per_frame.2 [[]] [[[cardTitleA, cardTitleB]]] 2 []
      [] (set_weighted_averages storeAB) 1 (by decide) (by decide)
      (c6_amended_recompute_per_frame.1 [[cardTitleA, cardTitleB]] [] 2 []
        storeAB (by decide) (by decide))⟩

/-- `split(",", 1)` cuts at the first comma: commas may occur after it but
not before. -/
lemma splitFirstComma_append (l f : List Char) (h : ',' ∉ l) :
    splitFirstComma (l ++ ',' :: f) = some (l, f) := by
  induction l with
  | nil => simp [splitFirstComma]
  | cons c cs ih =>
    have hc : c ≠ ',' := fun hcc => h (hcc ▸ List.mem_cons_self c cs)
    have hcs : ',' ∉ cs := fun hm => h (List.mem_cons_of_mem c hm)
    simp [splitFirstComma, hc, ih hcs]

/-- Claim C9: for a raw author string with a comma — written as
`l ++ "," ++ f` with no comma in `l` — the extractor splits at that first
comma, removes all spaces from the surname part, strips the given-names
part and collapses each dot-plus-whitespace run (`"J. R. R."` to
`"J.R.R."`), and reassembles `"Surname, GivenNames"`. -/
theorem c9_author_normalization (l f : List Char) (h : ',' ∉ l) :
    normalizeAuthor (l ++ ',' :: f) =
      some (removeSpaces l ++ ',' :: ' ' :: collapseDotWs (pyStripWs f)) := by
  unfold normalizeAuthor
  rw [splitFirstComma_append l f h]
  rfl

/-- Witness for C9 at `"Tolkien , J. R. R. "`: the surname's internal
space is removed and the initials collapse, giving `"Tolkien, J.R.R."`. -/
theorem c9_author_normalization_witness :
    normalizeAuthor ("Tolkien ".toList ++ ',' :: " J. R. R. ".toList) =
      some (removeSpaces ("Tolkien ".toList) ++ ',' :: ' ' ::
        collapseDotWs (pyStripWs (" J. R. R. ".toList))) ∧
    normalizeAuthor ("Tolkien , J. R. R. ".toList) =
      some ("Tolkien, J.R.R.".toList) :=
  ⟨c9_author_normalization ("Tolkien ".toList) (" J. R. R. ".toList)
      (by decide),
   by decide⟩

/-- Claim C10: when the probe's HTTP fetch succeeds but the pagination
label is missing, too short, or numerically unparsable, the probed target
is 0 and the scrape takes the fatal "no results" exit — the very same
outcome as for a label that genuinely reports 0 matches, so the two are
indistinguishable at the interface. -/
theorem c10_unparsable_probe_is_zero (label : Option (List Char))
    (h : label = none ∨
      (∃ s, label = some s ∧ (pySplitWs s)[4]? = none) ∨
      (∃ s tok, label = some s ∧ (pySplitWs s)[4]? = some tok ∧
        pythonInt (removeCommas tok) = none)) :
    parseTargetCount label = 0 ∧
    scrapeInitStep label = InitOutcome.fatalNoResults ∧
    ∀ s0, parseTargetCount (some s0) = 0 →
      scrapeInitStep label = scrapeInitStep (some s0) := by
  have h0 : parseTargetCount label = 0 := by
    rcases h with rfl | ⟨s, rfl, hs⟩ | ⟨s, tok, rfl, h1, h2⟩
    · rfl
    · simp [parseTargetCount, hs]
    · simp [parseTargetCount, h1, h2]
  refine ⟨h0, by simp [scrapeInitStep, h0], ?_⟩
  intro s0 hs0
  simp [scrapeInitStep, h0, hs0]

/-- Witness for C10: a label with too few tokens probes to 0 and exits the
same way as a label genuinely reporting zero results. -/
theorem c10_unparsable_probe_is_zero_witness :
    parseTargetCount (some ("Viewing results".toList)) = 0 ∧
    scrapeInitStep (some ("Viewing results".toList)) =
      InitOutcome.fatalNoResults ∧
    scrapeInitStep (some ("Viewing results".toList)) =
      scrapeInitStep (some ("1 to 0 of 0 results".toList)) :=
  have h := c10_unparsable_probe_is_zero (some ("Viewing results".toList))
    (Or.inr (Or.inl ⟨"Viewing results".toList, rfl, by decide⟩))
  ⟨h.1, h.2.1, h.2.2 ("1 to 0 of 0 results".toList) (by decide)⟩
